import Mathlib

/-!
Verification of the coord_transforms coordinate-conversion library.

The library consists of eight pure functions over 3-component vectors of
double-precision values (src/d3.rs and src/geo.rs), plus an ellipsoid
parameter object.  The embedding models the double-precision scalars as
real numbers; each Rust function is translated line by line into a Lean
definition of the same name.
-/

open Real

namespace CoordTransforms

/-- Three-component vector, the embedding of nalgebra Vector3 of f64. -/
structure Vector3 where
  x : ℝ
  y : ℝ
  z : ℝ

/-- Two-argument arctangent with the convention of the f64 atan2 primitive:
atan2 y x is the argument of the complex number with real part x and
imaginary part y, so the result lies in (-pi, pi] and atan2 0 0 = 0. -/
noncomputable def atan2 (y x : ℝ) : ℝ := Complex.arg ⟨x, y⟩

/-- Modelled from the spec: the Ellipsoid Model of sections 3 and 4.1, an
immutable value object whose accessors return the semi-major axis, the
semi-minor axis and the first and second eccentricities exactly as fixed at
construction (the file structs/geo_ellipsoid.rs itself is not under src/,
so the record holds the scalars its accessors return). -/
structure geo_ellipsoid where
  semi_major_axis : ℝ
  semi_minor_axis : ℝ
  first_ecc : ℝ
  second_ecc : ℝ

/-- Accessor for the semi-major axis, embedding get_semi_major_axis. -/
def geo_ellipsoid.get_semi_major_axis (e : geo_ellipsoid) : ℝ :=
  e.semi_major_axis

/-- Accessor for the semi-minor axis, embedding get_semi_minor_axis. -/
def geo_ellipsoid.get_semi_minor_axis (e : geo_ellipsoid) : ℝ :=
  e.semi_minor_axis

/-- Accessor for the first eccentricity, embedding get_first_ecc. -/
def geo_ellipsoid.get_first_ecc (e : geo_ellipsoid) : ℝ :=
  e.first_ecc

/-- Accessor for the second eccentricity, embedding get_second_ecc. -/
def geo_ellipsoid.get_second_ecc (e : geo_ellipsoid) : ℝ :=
  e.second_ecc

/-- Embedding of enu2ned from src/geo.rs lines 20-26. -/
def enu2ned (enu_vec : Vector3) : Vector3 :=
  { x := enu_vec.y, y := enu_vec.x, z := -enu_vec.z }

/-- Embedding of ned2enu from src/geo.rs lines 43-49. -/
def ned2enu (ned_vec : Vector3) : Vector3 :=
  { x := ned_vec.y, y := ned_vec.x, z := -ned_vec.z }

/-- Embedding of lla2ecef from src/geo.rs lines 67-74. -/
noncomputable def lla2ecef (lla_vec : Vector3) (ellipsoid : geo_ellipsoid) : Vector3 :=
  let N := ellipsoid.get_semi_major_axis /
    Real.sqrt (1 - ellipsoid.get_first_ecc ^ 2 * Real.sin lla_vec.x ^ 2)
  { x := (N + lla_vec.z) * Real.cos lla_vec.x * Real.cos lla_vec.y
    y := (N + lla_vec.z) * Real.cos lla_vec.x * Real.sin lla_vec.y
    z := ((ellipsoid.get_semi_minor_axis ^ 2 / ellipsoid.get_semi_major_axis ^ 2) * N
      + lla_vec.z) * Real.sin lla_vec.x }

/-- Embedding of ecef2lla from src/geo.rs lines 92-103; the variable names
p, theta, xTop, xBot and N follow the source. -/
noncomputable def ecef2lla (ecef_vec : Vector3) (ellipsoid : geo_ellipsoid) : Vector3 :=
  let p := Real.sqrt (ecef_vec.x ^ 2 + ecef_vec.y ^ 2)
  let theta := atan2 (ecef_vec.z * ellipsoid.get_semi_major_axis)
    (p * ellipsoid.get_semi_minor_axis)
  let xTop := ecef_vec.z + ellipsoid.get_second_ecc ^ 2 * ellipsoid.get_semi_minor_axis
    * Real.sin theta ^ 3
  let xBot := p - ellipsoid.get_first_ecc ^ 2 * ellipsoid.get_semi_major_axis
    * Real.cos theta ^ 3
  let lat := atan2 xTop xBot
  let lon := atan2 ecef_vec.y ecef_vec.x
  let N := ellipsoid.get_semi_major_axis /
    Real.sqrt (1 - ellipsoid.get_first_ecc ^ 2 * (Real.sin lat * Real.sin lat))
  { x := lat, y := lon, z := p / Real.cos lat - N }

/-- Embedding of spherical2cartesian from src/d3.rs lines 18-24. -/
noncomputable def spherical2cartesian (sphere_vec : Vector3) : Vector3 :=
  { x := sphere_vec.x * Real.sin sphere_vec.y * Real.cos sphere_vec.z
    y := sphere_vec.x * Real.sin sphere_vec.y * Real.sin sphere_vec.z
    z := sphere_vec.x * Real.cos sphere_vec.y }

/-- Embedding of cylindrical2cartesian from src/d3.rs lines 41-47. -/
noncomputable def cylindrical2cartesian (cyl_vec : Vector3) : Vector3 :=
  { x := cyl_vec.x * Real.cos cyl_vec.y
    y := cyl_vec.x * Real.sin cyl_vec.y
    z := cyl_vec.z }

/-- Embedding of cartesian2spherical from src/d3.rs lines 64-70. -/
noncomputable def cartesian2spherical (cart_vec : Vector3) : Vector3 :=
  { x := Real.sqrt (cart_vec.x ^ 2 + cart_vec.y ^ 2 + cart_vec.z ^ 2)
    y := atan2 (Real.sqrt (cart_vec.x ^ 2 + cart_vec.y ^ 2)) cart_vec.z
    z := atan2 cart_vec.y cart_vec.x }

/-- Embedding of cartesian2cylindrical from src/d3.rs lines 87-93. -/
noncomputable def cartesian2cylindrical (cart_vec : Vector3) : Vector3 :=
  { x := Real.sqrt (cart_vec.x ^ 2 + cart_vec.y ^ 2)
    y := atan2 cart_vec.y cart_vec.x
    z := cart_vec.z }

/-- The ECEF-to-LLA closed form exactly as the claim states it: p, the
auxiliary angle theta, lat, lon, N with sin squared of lat, and
alt = p / cos lat - N. -/
noncomputable def ecef2lla_claimed (v : Vector3) (el : geo_ellipsoid) : Vector3 :=
  let a := el.get_semi_major_axis
  let b := el.get_semi_minor_axis
  let p := Real.sqrt (v.x ^ 2 + v.y ^ 2)
  let theta := atan2 (v.z * a) (p * b)
  let lat := atan2 (v.z + el.get_second_ecc ^ 2 * b * Real.sin theta ^ 3)
    (p - el.get_first_ecc ^ 2 * a * Real.cos theta ^ 3)
  let lon := atan2 v.y v.x
  let N := a / Real.sqrt (1 - el.get_first_ecc ^ 2 * Real.sin lat ^ 2)
  { x := lat, y := lon, z := p / Real.cos lat - N }

/-- C1: for every ECEF input and every ellipsoid model, ecef2lla returns the
vector (lat, lon, alt) given by the closed form with auxiliary angle
theta = atan2 (z * a) (p * b). -/
theorem ecef2lla_closed_form (v : Vector3) (el : geo_ellipsoid) :
    ecef2lla v el = ecef2lla_claimed v el := by
  simp only [ecef2lla, ecef2lla_claimed, pow_two]

/-- C2: for every LLA input and every ellipsoid model, lla2ecef returns
x = (N + alt) cos lat cos lon, y = (N + alt) cos lat sin lon and
z = ((b^2 / a^2) N + alt) sin lat with N = a / sqrt (1 - e^2 sin^2 lat). -/
theorem lla2ecef_closed_form (v : Vector3) (el : geo_ellipsoid) :
    lla2ecef v el =
      { x := (el.get_semi_major_axis /
            Real.sqrt (1 - el.get_first_ecc ^ 2 * Real.sin v.x ^ 2) + v.z)
          * Real.cos v.x * Real.cos v.y
        y := (el.get_semi_major_axis /
            Real.sqrt (1 - el.get_first_ecc ^ 2 * Real.sin v.x ^ 2) + v.z)
          * Real.cos v.x * Real.sin v.y
        z := ((el.get_semi_minor_axis ^ 2 / el.get_semi_major_axis ^ 2)
            * (el.get_semi_major_axis /
              Real.sqrt (1 - el.get_first_ecc ^ 2 * Real.sin v.x ^ 2)) + v.z)
          * Real.sin v.x } := rfl

/-- C3: cartesian2spherical returns rho = sqrt (x^2 + y^2 + z^2),
theta = atan2 (sqrt (x^2 + y^2)) z and phi = atan2 y x, every angle computed
with the two-argument arctangent. -/
theorem cartesian2spherical_closed_form (v : Vector3) :
    cartesian2spherical v =
      { x := Real.sqrt (v.x ^ 2 + v.y ^ 2 + v.z ^ 2)
        y := atan2 (Real.sqrt (v.x ^ 2 + v.y ^ 2)) v.z
        z := atan2 v.y v.x } := rfl

/-- C4: spherical2cartesian returns x = rho sin theta cos phi,
y = rho sin theta sin phi and z = rho cos theta. -/
theorem spherical2cartesian_closed_form (v : Vector3) :
    spherical2cartesian v =
      { x := v.x * Real.sin v.y * Real.cos v.z
        y := v.x * Real.sin v.y * Real.sin v.z
        z := v.x * Real.cos v.y } := rfl

/-- C5: enu2ned maps (E, N, U) to (N, E, -U), ned2enu maps (N, E, D) to
(E, N, -D), and enu2ned applied to (3, 4, 5) returns exactly (4, 3, -5). -/
theorem enu2ned_ned2enu_swap_negate :
    (∀ v : Vector3, enu2ned v = { x := v.y, y := v.x, z := -v.z }) ∧
    (∀ v : Vector3, ned2enu v = { x := v.y, y := v.x, z := -v.z }) ∧
    enu2ned { x := 3, y := 4, z := 5 } = { x := 4, y := 3, z := -5 } :=
  ⟨fun _ => rfl, fun _ => rfl, rfl⟩

/-- C6: enu2ned and ned2enu are involutions, exactly. -/
theorem enu2ned_ned2enu_involutive :
    (∀ v : Vector3, enu2ned (enu2ned v) = v) ∧
    (∀ v : Vector3, ned2enu (ned2enu v) = v) := by
  constructor <;> intro v <;> simp [enu2ned, ned2enu]

/-- C8: at x = y = 0 no special case runs: for every z,
cartesian2cylindrical (0, 0, z) is exactly (0, 0, z), since the square root
of zero is zero and atan2 0 0 = 0. -/
theorem cartesian2cylindrical_axis (z : ℝ) :
    cartesian2cylindrical { x := 0, y := 0, z := z } = { x := 0, y := 0, z := z } := by
  have h0 : (⟨0, 0⟩ : ℂ) = 0 := by
    apply Complex.ext <;> simp
  simp [cartesian2cylindrical, atan2, h0, Complex.arg_zero]

/-- C9: the rho component returned by cartesian2spherical and by
cartesian2cylindrical is nonnegative, and the theta component returned by
cartesian2spherical lies in the closed interval from 0 to pi. -/
theorem cartesian2spherical_cylindrical_ranges (v : Vector3) :
    0 ≤ (cartesian2spherical v).x ∧ 0 ≤ (cartesian2cylindrical v).x ∧
    0 ≤ (cartesian2spherical v).y ∧ (cartesian2spherical v).y ≤ Real.pi := by
  refine ⟨Real.sqrt_nonneg _, Real.sqrt_nonneg _, ?_, ?_⟩
  · exact Complex.arg_nonneg_iff.mpr (Real.sqrt_nonneg _)
  · exact Complex.arg_le_pi _

/-- C10: enu2ned and ned2enu preserve the sum of squares of the components
exactly. -/
theorem enu2ned_ned2enu_norm_preserving (v : Vector3) :
    (enu2ned v).x ^ 2 + (enu2ned v).y ^ 2 + (enu2ned v).z ^ 2
      = v.x ^ 2 + v.y ^ 2 + v.z ^ 2 ∧
    (ned2enu v).x ^ 2 + (ned2enu v).y ^ 2 + (ned2enu v).z ^ 2
      = v.x ^ 2 + v.y ^ 2 + v.z ^ 2 := by
  constructor <;> simp [enu2ned, ned2enu] <;> ring

end CoordTransforms
